import Mathlib

/-!
Verification of the DocuMind preprocessing/OCR scripts.

Shallow embedding of `backend/utils/preprocess_advanced.py`,
`backend/utils/preprocess.py`, `backend/utils/compare_preprocessing.py` and
`backend/utils/ocr.py`.  The OpenCV / numpy / PIL / pytesseract calls are
external libraries (spec §1 places their internals out of scope); each image
operation is modelled at the dimension/channel level: what it requires of its
input buffer and what shape of buffer it returns.  File-system and process
facts (file existence, decoder success, imwrite success, the OCR engine's
availability and raw output) are inputs to the embedded functions, standing
for the environment the scripts probe.
-/

/-- An in-memory image buffer: width, height and channel count.
`cv2.imread` yields 3-channel BGR buffers; grayscale buffers have 1 channel. -/
structure Img where
  width : Nat
  height : Nat
  channels : Nat
deriving DecidableEq, Repr

/-- Interpolation flag of `cv2.resize`; the sources only use `INTER_CUBIC`. -/
inductive Interp
  | interCubic
deriving DecidableEq, Repr

/-- One image-processing operation with its numeric parameters, translated from
the `cv2` calls appearing in the source pipelines. -/
inductive Op
  | resize (factor : Nat) (interp : Interp)
  | cvtColorBGR2GRAY
  | gaussianBlur (kw kh sigma : Nat)
  | fastNlMeansDenoising (strength : Nat)
  | thresholdOtsuBinary (thresh maxval : Nat)
  | thresholdBinary (thresh maxval : Nat)
  | adaptiveThresholdGaussianBinary (maxval blockSize c : Nat)
  | claheApply (clipLimit : ℚ) (tileW tileH : Nat)
  | dilate (kw kh iterations : Nat)
  | morphOpenOp (kw kh : Nat)
deriving DecidableEq, Repr

/-- Dimension/channel semantics of one operation.  Every cv2 call raises on an
empty buffer; `cvtColor(BGR2GRAY)` needs a 3-channel input and returns a
1-channel one; denoising, Otsu/adaptive thresholding and CLAHE operate on
single-channel 8-bit buffers; blur, plain binary threshold, dilation and
morphology preserve the shape they are given. -/
def applyOp (op : Op) (img : Img) : Option Img :=
  if img.width = 0 ∨ img.height = 0 then none
  else
    match op with
    | .resize k _ => some ⟨img.width * k, img.height * k, img.channels⟩
    | .cvtColorBGR2GRAY =>
        if img.channels = 3 then some ⟨img.width, img.height, 1⟩ else none
    | .gaussianBlur _ _ _ => some img
    | .fastNlMeansDenoising _ => if img.channels = 1 then some img else none
    | .thresholdOtsuBinary _ _ => if img.channels = 1 then some img else none
    | .thresholdBinary _ _ => some img
    | .adaptiveThresholdGaussianBinary _ _ _ =>
        if img.channels = 1 then some img else none
    | .claheApply _ _ _ => if img.channels = 1 then some img else none
    | .dilate _ _ _ => some img
    | .morphOpenOp _ _ => some img

/-- Run a sequence of operations left to right, feeding each step the previous
step's output, exactly as the straight-line Python pipelines do.  Returns the
final image (`none` if some step raised) together with the list of operations
that actually completed, in execution order. -/
def runTrace : List Op → Img → Option Img × List Op
  | [], img => (some img, [])
  | op :: ops, img =>
    match applyOp op img with
    | none => (none, [])
    | some next =>
      let rest := runTrace ops next
      (rest.1, op :: rest.2)

/-- Brightness statistics of the grayscale view of an image, as computed by
`np.mean` / `np.std` in `auto_detect_mode` (the numeric computation itself is
the external Statistics Estimator, spec §4.1). -/
structure ImageStatistics where
  mean : ℚ
  std : ℚ
deriving DecidableEq, Repr

/-- The JSON failure object the scripts print before `sys.exit(1)`:
`{"success": false, "error": ..., "message": ...}`. -/
structure FailureResult where
  success : Bool
  error : String
  message : String
deriving DecidableEq, Repr

namespace PreprocessAdvanced

/-- `preprocess_standard` (preprocess_advanced.py lines 14-44):
resize ×2 cubic, BGR→gray, GaussianBlur (5,5,0), Otsu binary threshold
(0,255), dilate 2×2 ×1, morphological open 2×2. -/
def standardOps : List Op :=
  [.resize 2 .interCubic, .cvtColorBGR2GRAY, .gaussianBlur 5 5 0,
   .thresholdOtsuBinary 0 255, .dilate 2 2 1, .morphOpenOp 2 2]

/-- `preprocess_aggressive` (lines 47-79): resize ×2 cubic, BGR→gray,
fastNlMeansDenoising h=10, adaptive threshold (gaussian, binary, 255, block
11, C 2), dilate 3×3 ×2. -/
def aggressiveOps : List Op :=
  [.resize 2 .interCubic, .cvtColorBGR2GRAY, .fastNlMeansDenoising 10,
   .adaptiveThresholdGaussianBinary 255 11 2, .dilate 3 3 2]

/-- `preprocess_minimal` (lines 82-99): resize ×2 cubic, BGR→gray, plain
binary threshold at 127 / 255. -/
def minimalOps : List Op :=
  [.resize 2 .interCubic, .cvtColorBGR2GRAY, .thresholdBinary 127 255]

/-- `preprocess_receipt` (lines 102-127): resize ×3 cubic, BGR→gray, CLAHE
(clip 2.0, tile 8×8), Otsu binary threshold (0,255), dilate 3×3 ×2. -/
def receiptOps : List Op :=
  [.resize 3 .interCubic, .cvtColorBGR2GRAY, .claheApply 2 8 8,
   .thresholdOtsuBinary 0 255, .dilate 3 3 2]

def preprocess_standard (image : Img) : Option Img :=
  (runTrace standardOps image).1

def preprocess_aggressive (image : Img) : Option Img :=
  (runTrace aggressiveOps image).1

def preprocess_minimal (image : Img) : Option Img :=
  (runTrace minimalOps image).1

def preprocess_receipt (image : Img) : Option Img :=
  (runTrace receiptOps image).1

/-- `auto_detect_mode` (lines 130-149), taking the brightness statistics the
source computes with numpy over the grayscale view of the input image. -/
def auto_detect_mode (stats : ImageStatistics) : String :=
  if stats.std < 40 then "aggressive"
  else if stats.mean > 200 ∧ stats.std > 50 then "minimal"
  else "standard"

/-- The step-description literals of the `mode == "aggressive"` dispatch arm
(lines 180-186). -/
def aggressiveSteps : List String :=
  ["2x Image Scaling (INTER_CUBIC)",
   "Grayscale conversion",
   "Fast NL Means Denoising",
   "Adaptive Thresholding (Gaussian)",
   "Dilation (3x3 kernel, 2 iterations)"]

/-- Step-description literals of the `mode == "minimal"` arm (lines 187-193). -/
def minimalSteps : List String :=
  ["2x Image Scaling (INTER_CUBIC)",
   "Grayscale conversion",
   "Simple Binary Thresholding"]

/-- Step-description literals of the `mode == "receipt"` arm (lines 194-202). -/
def receiptSteps : List String :=
  ["3x Image Scaling (INTER_CUBIC)",
   "Grayscale conversion",
   "CLAHE Contrast Enhancement",
   "Otsu's Thresholding",
   "Dilation (3x3 kernel, 2 iterations)"]

/-- Step-description literals of the final `else:  # standard` arm
(lines 203-212). -/
def standardSteps : List String :=
  ["2x Image Scaling (INTER_CUBIC)",
   "Grayscale conversion",
   "Gaussian Blur (5x5 kernel)",
   "Otsu's Thresholding",
   "Dilation (2x2 kernel, 1 iteration)",
   "Morphological Opening (noise removal)"]

/-- The operation sequence the dispatch of `preprocess_image` (lines 178-212)
runs for a given mode string: the three named arms, and the trailing
`else:  # standard` arm for every other string. -/
def resolveOps (mode : String) : List Op :=
  if mode = "aggressive" then aggressiveOps
  else if mode = "minimal" then minimalOps
  else if mode = "receipt" then receiptOps
  else standardOps

/-- The step-description list the same dispatch pairs with each arm. -/
def resolveSteps (mode : String) : List String :=
  if mode = "aggressive" then aggressiveSteps
  else if mode = "minimal" then minimalSteps
  else if mode = "receipt" then receiptSteps
  else standardSteps

/-- Mode resolution of lines 173-175: only the literal string "auto" is
replaced by the auto-detected mode; any other string passes through. -/
def resolveMode (stats : ImageStatistics) (mode : String) : String :=
  if mode = "auto" then auto_detect_mode stats else mode

/-- The success JSON of `preprocess_image` (lines 228-242), minus the
path strings, which are pure I/O plumbing. -/
structure AdvSuccess where
  mode : String
  originalWidth : Nat
  originalHeight : Nat
  processedWidth : Nat
  processedHeight : Nat
  processedChannels : Nat
  preprocessing_steps : List String
deriving DecidableEq, Repr

/-- `preprocess_image` (preprocess_advanced.py lines 152-254).  Environment
facts are parameters: `fileExists` (`os.path.exists`), `cvRead` (the buffer
`cv2.imread` returned, `none` when it failed), `imwriteOk` (`cv2.imwrite`'s
return).  The `except Exception` handler at lines 247-254 reports
`type(e).__name__` as the error field: "FileNotFoundError" for the missing
file, "ValueError" for the unreadable image, "error" (cv2.error's name) for a
failed pipeline step, "OSError" for the failed save (Python 3's `IOError` is
an alias of `OSError`).  The second component is the buffer handed to
`cv2.imwrite`, i.e. what the call attempts to persist (`none` when execution
never reaches the save). -/
def preprocess_image (fileExists : Bool) (cvRead : Option Img)
    (stats : ImageStatistics) (imwriteOk : Bool) (mode : String) :
    Except FailureResult AdvSuccess × Option Img :=
  if fileExists = false then
    (Except.error ⟨false, "FileNotFoundError", "Input file not found"⟩, none)
  else
    match cvRead with
    | none => (Except.error ⟨false, "ValueError", "Failed to read image"⟩, none)
    | some image =>
      match (runTrace (resolveOps (resolveMode stats mode)) image).1 with
      | none =>
          (Except.error ⟨false, "error", "preprocessing step failed"⟩, none)
      | some processed =>
          if imwriteOk = false then
            (Except.error ⟨false, "OSError", "Failed to save processed image"⟩,
             some processed)
          else
            (Except.ok ⟨resolveMode stats mode, image.width, image.height,
                        processed.width, processed.height, processed.channels,
                        resolveSteps (resolveMode stats mode)⟩,
             some processed)

end PreprocessAdvanced

namespace Preprocess

/-- The single inline pipeline of `preprocess_image` (preprocess.py lines
44-79): resize ×2 cubic, BGR→gray, GaussianBlur (5,5,0), Otsu binary
threshold (0,255), dilate 2×2 ×1, morphological open 2×2. -/
def pipelineOps : List Op :=
  [.resize 2 .interCubic, .cvtColorBGR2GRAY, .gaussianBlur 5 5 0,
   .thresholdOtsuBinary 0 255, .dilate 2 2 1, .morphOpenOp 2 2]

/-- The `preprocessing_steps` literal of the success JSON (lines 110-117). -/
def pySteps : List String :=
  ["2x Image Scaling (INTER_CUBIC)",
   "Grayscale conversion",
   "Gaussian Blur (5x5 kernel)",
   "Otsu's Thresholding",
   "Dilation (2x2 kernel, 1 iteration)",
   "Morphological Opening (noise removal)"]

/-- The success JSON of preprocess.py (lines 97-118), minus path strings.
The reported processed dimensions are `original * 2`, computed before the
pipeline runs (lines 46-47, 105-108). -/
structure PySuccess where
  originalWidth : Nat
  originalHeight : Nat
  processedWidth : Nat
  processedHeight : Nat
  scaling_factor : ℚ
  preprocessing_steps : List String
deriving DecidableEq, Repr

/-- `preprocess_image` (preprocess.py lines 15-150).  Its handlers are typed:
`FileNotFoundError` → "File not found", `ValueError` (unreadable image) →
"Invalid image", and the catch-all `except Exception` → "Processing failed"
(this one receives both a cv2.error from a pipeline step and the `IOError`
raised when `cv2.imwrite` returns false).  Second component: the buffer
handed to `cv2.imwrite`. -/
def preprocess_image (fileExists : Bool) (cvRead : Option Img)
    (imwriteOk : Bool) : Except FailureResult PySuccess × Option Img :=
  if fileExists = false then
    (Except.error ⟨false, "File not found", "Input file not found"⟩, none)
  else
    match cvRead with
    | none => (Except.error ⟨false, "Invalid image", "Failed to read image"⟩, none)
    | some image =>
      match (runTrace pipelineOps image).1 with
      | none =>
          (Except.error ⟨false, "Processing failed", "preprocessing step failed"⟩,
           none)
      | some finalImage =>
          if imwriteOk = false then
            (Except.error ⟨false, "Processing failed",
                           "Failed to save processed image"⟩,
             some finalImage)
          else
            (Except.ok ⟨image.width, image.height, image.width * 2,
                        image.height * 2, 2, pySteps⟩,
             some finalImage)

end Preprocess

namespace ComparePreprocessing

/-- `preprocess_standard` of compare_preprocessing.py (lines 14-25),
translated independently from that file. -/
def standardOps : List Op :=
  [.resize 2 .interCubic, .cvtColorBGR2GRAY, .gaussianBlur 5 5 0,
   .thresholdOtsuBinary 0 255, .dilate 2 2 1, .morphOpenOp 2 2]

def preprocess_standard (image : Img) : Option Img :=
  (runTrace standardOps image).1

end ComparePreprocessing

/-- Python's `str.strip()` with no arguments: drop leading and trailing
whitespace.  Modelled over the character list so that it reduces in the
kernel (`String.trim` has the same semantics but is built on `Substring`
well-founded recursion, which does not). -/
def pyStrip (s : String) : String :=
  String.mk
    (((s.data.dropWhile Char.isWhitespace).reverse.dropWhile
        Char.isWhitespace).reverse)

namespace Ocr

/-- One entry of pytesseract's `image_to_data` output: the token text and its
integer confidence (negative for "no detection" placeholder rows). -/
structure OCRToken where
  text : String
  conf : Int
deriving DecidableEq, Repr

/-- ocr.py line 55: `[int(conf) for conf in data['conf'] if int(conf) > 0]`. -/
def positiveConfidences (tokens : List OCRToken) : List Int :=
  (tokens.map OCRToken.conf).filter (fun c => 0 < c)

/-- ocr.py line 56: `sum(confidences) / len(confidences) if confidences else 0`. -/
def avg_confidence (tokens : List OCRToken) : ℚ :=
  let cs := positiveConfidences tokens
  if cs = [] then 0
  else ((cs.map (fun c => (c : ℚ))).sum) / (cs.length : ℚ)

/-- ocr.py line 59: `len([word for word in data['text'] if word.strip()])`
(a stripped Python string is truthy exactly when it is non-empty). -/
def word_count (tokens : List OCRToken) : Nat :=
  (tokens.filter (fun t => pyStrip t.text ≠ "")).length

/-- ocr.py line 68: `round(avg_confidence, 2)`, modelled on exact rationals. -/
def round2 (q : ℚ) : ℚ := (round (q * 100) : ℤ) / 100

/-- Modelled from the spec: the full text comes from the external engine call
`pytesseract.image_to_string` (ocr.py line 49), which is not code of this
repository; spec §4.5 specifies it as the concatenation of the non-empty
token texts in their given order under the engine's native join semantics,
modelled here as single-space joining. -/
def full_text (tokens : List OCRToken) : String :=
  String.intercalate " " ((tokens.map OCRToken.text).filter (fun t => t ≠ ""))

/-- The success JSON of `extract_text_from_image` (ocr.py lines 62-72). -/
structure OCRSuccess where
  text : String
  word_count : Nat
  average_confidence : ℚ
  language : String
  tesseract_version : String
deriving DecidableEq, Repr

/-- Environment facts `extract_text_from_image` probes, in the order the code
encounters them: file existence, `cv2.imread` success, `PIL.Image.open`
success, Tesseract availability, engine success, and the engine's raw
outputs. -/
structure OCREnv where
  fileExists : Bool
  cvReadOk : Bool
  pilReadOk : Bool
  tesseractFound : Bool
  engineOk : Bool
  engineText : String
  tokens : List OCRToken
  version : String
deriving DecidableEq, Repr

/-- `extract_text_from_image` (ocr.py lines 20-105).  Control flow of the
source: missing file raises `FileNotFoundError` → "File not found"; when
`cv2.imread` returns `None` the code retries with `PIL.Image.open` (lines
39-41), whose failure raises a generic exception caught by the catch-all
handler → "OCR failed"; a missing Tesseract binary raises
`TesseractNotFoundError` → "Tesseract not found"; any other engine error →
"OCR failed".  On success the aggregation of lines 55-72 runs. -/
def extract_text_from_image (env : OCREnv) (lang : String) :
    Except FailureResult OCRSuccess :=
  if env.fileExists = false then
    Except.error ⟨false, "File not found", "Image file not found"⟩
  else if env.cvReadOk = false ∧ env.pilReadOk = false then
    Except.error ⟨false, "OCR failed", "cannot identify image file"⟩
  else if env.tesseractFound = false then
    Except.error ⟨false, "Tesseract not found",
                  "Tesseract is not installed or not found"⟩
  else if env.engineOk = false then
    Except.error ⟨false, "OCR failed", "engine error"⟩
  else
    Except.ok ⟨pyStrip env.engineText, word_count env.tokens,
               round2 (avg_confidence env.tokens), lang, env.version⟩

/-- The token list of the spec's worked example (§8). -/
def exTokens : List OCRToken := [⟨"Hello", 90⟩, ⟨"", -1⟩, ⟨"World", 80⟩]

end Ocr

/-!  Spec-side definitions, written from the spec's words, to be compared
against the definitions translated from the source. -/

/-- §4.3 table, standard row: scale×2 (cubic) → grayscale → gaussian-blur(5×5)
→ threshold(Otsu, binary) → dilate(2×2, iters=1) → morphological-open(2×2).
Parameters the table leaves implicit (Otsu range 0-255, blur sigma 0) are the
library's canonical values. -/
def tableStandard : List Op :=
  [.resize 2 .interCubic, .cvtColorBGR2GRAY, .gaussianBlur 5 5 0,
   .thresholdOtsuBinary 0 255, .dilate 2 2 1, .morphOpenOp 2 2]

/-- §4.3 table, aggressive row: scale×2 (cubic) → grayscale →
denoise(strength=10) → adaptive-threshold(gaussian, block=11, C=2) →
dilate(3×3, iters=2). -/
def tableAggressive : List Op :=
  [.resize 2 .interCubic, .cvtColorBGR2GRAY, .fastNlMeansDenoising 10,
   .adaptiveThresholdGaussianBinary 255 11 2, .dilate 3 3 2]

/-- §4.3 table, minimal row: scale×2 (cubic) → grayscale → threshold(fixed
cutoff=127, binary). -/
def tableMinimal : List Op :=
  [.resize 2 .interCubic, .cvtColorBGR2GRAY, .thresholdBinary 127 255]

/-- §4.3 table, receipt row: scale×3 (cubic) → grayscale →
contrast-enhance(CLAHE, clip=2.0, tile=8×8) → threshold(Otsu, binary) →
dilate(3×3, iters=2). -/
def tableReceipt : List Op :=
  [.resize 3 .interCubic, .cvtColorBGR2GRAY, .claheApply 2 8 8,
   .thresholdOtsuBinary 0 255, .dilate 3 3 2]

/-- The correspondence between the error strings the scripts emit and the
fixed category identifiers of spec §6: "File not found" ↔ file-not-found,
"Invalid image" ↔ invalid-image, "Processing failed" ↔ processing-failed,
"Tesseract not found" ↔ ocr-engine-unavailable, "OCR failed" ↔ ocr-failed,
"Invalid arguments" ↔ invalid-arguments; any other string lies outside the
set. -/
def specCategoryOf : String → Option String
  | "File not found" => some "file-not-found"
  | "Invalid image" => some "invalid-image"
  | "Processing failed" => some "processing-failed"
  | "Tesseract not found" => some "ocr-engine-unavailable"
  | "OCR failed" => some "ocr-failed"
  | "Invalid arguments" => some "invalid-arguments"
  | _ => none

/-!  Helper lemmas shared by the claim theorems. -/

theorem runTrace_standardOps (w h : Nat) (hw : w ≠ 0) (hh : h ≠ 0) :
    runTrace PreprocessAdvanced.standardOps ⟨w, h, 3⟩ =
      (some ⟨w * 2, h * 2, 1⟩, PreprocessAdvanced.standardOps) := by
  simp [PreprocessAdvanced.standardOps, runTrace, applyOp, hw, hh,
    Nat.mul_eq_zero]

theorem runTrace_aggressiveOps (w h : Nat) (hw : w ≠ 0) (hh : h ≠ 0) :
    runTrace PreprocessAdvanced.aggressiveOps ⟨w, h, 3⟩ =
      (some ⟨w * 2, h * 2, 1⟩, PreprocessAdvanced.aggressiveOps) := by
  simp [PreprocessAdvanced.aggressiveOps, runTrace, applyOp, hw, hh,
    Nat.mul_eq_zero]

theorem runTrace_minimalOps (w h : Nat) (hw : w ≠ 0) (hh : h ≠ 0) :
    runTrace PreprocessAdvanced.minimalOps ⟨w, h, 3⟩ =
      (some ⟨w * 2, h * 2, 1⟩, PreprocessAdvanced.minimalOps) := by
  simp [PreprocessAdvanced.minimalOps, runTrace, applyOp, hw, hh,
    Nat.mul_eq_zero]

theorem runTrace_receiptOps (w h : Nat) (hw : w ≠ 0) (hh : h ≠ 0) :
    runTrace PreprocessAdvanced.receiptOps ⟨w, h, 3⟩ =
      (some ⟨w * 3, h * 3, 1⟩, PreprocessAdvanced.receiptOps) := by
  simp [PreprocessAdvanced.receiptOps, runTrace, applyOp, hw, hh,
    Nat.mul_eq_zero]

/-- Whatever the (already resolved) mode string, the dispatch's pipeline runs
to completion on a non-degenerate 3-channel image. -/
theorem resolveOps_run_isSome (w h : Nat) (hw : w ≠ 0) (hh : h ≠ 0)
    (m : String) :
    ((runTrace (PreprocessAdvanced.resolveOps m) ⟨w, h, 3⟩).1).isSome = true := by
  unfold PreprocessAdvanced.resolveOps
  split
  · rw [runTrace_aggressiveOps w h hw hh]; rfl
  · split
    · rw [runTrace_minimalOps w h hw hh]; rfl
    · split
      · rw [runTrace_receiptOps w h hw hh]; rfl
      · rw [runTrace_standardOps w h hw hh]; rfl

/-- A success result of the advanced `preprocess_image` always carries the
resolved mode and the resolved mode's step-description list. -/
theorem adv_ok_result {fe wr : Bool} {cv : Option Img}
    {stats : ImageStatistics} {mode : String}
    {s : PreprocessAdvanced.AdvSuccess}
    (hok : (PreprocessAdvanced.preprocess_image fe cv stats wr mode).1 =
      Except.ok s) :
    s.mode = PreprocessAdvanced.resolveMode stats mode ∧
    s.preprocessing_steps =
      PreprocessAdvanced.resolveSteps (PreprocessAdvanced.resolveMode stats mode) := by
  unfold PreprocessAdvanced.preprocess_image at hok
  split at hok
  · simp at hok
  · split at hok
    · simp at hok
    · split at hok
      · simp at hok
      · split at hok
        · simp at hok
        · simp only [Except.ok.injEq] at hok
          subst hok
          exact ⟨rfl, rfl⟩

/-!  Claim theorems. -/

/-- C1: the mode selector, as a function of the image's brightness
statistics, returns "aggressive" whenever std < 40; otherwise "minimal" when
mean > 200 and std > 50; otherwise "standard".  It is total and never
returns "auto" or "receipt". -/
theorem mode_selector_contract (mean std : ℚ) :
    (std < 40 → PreprocessAdvanced.auto_detect_mode ⟨mean, std⟩ = "aggressive") ∧
    (¬ std < 40 → mean > 200 → std > 50 →
       PreprocessAdvanced.auto_detect_mode ⟨mean, std⟩ = "minimal") ∧
    (¬ std < 40 → ¬ (mean > 200 ∧ std > 50) →
       PreprocessAdvanced.auto_detect_mode ⟨mean, std⟩ = "standard") ∧
    PreprocessAdvanced.auto_detect_mode ⟨mean, std⟩ ≠ "auto" ∧
    PreprocessAdvanced.auto_detect_mode ⟨mean, std⟩ ≠ "receipt" := by
  unfold PreprocessAdvanced.auto_detect_mode
  dsimp only
  split_ifs with h1 h2 <;>
    refine ⟨?_, ?_, ?_, ?_, ?_⟩ <;> intros <;> first | rfl | decide | tauto

/-- C1 witness: the selector evaluated in each region of the statistics
space. -/
theorem mode_selector_contract_witness :
    PreprocessAdvanced.auto_detect_mode ⟨100, 30⟩ = "aggressive" ∧
    PreprocessAdvanced.auto_detect_mode ⟨220, 60⟩ = "minimal" ∧
    PreprocessAdvanced.auto_detect_mode ⟨100, 45⟩ = "standard" :=
  ⟨(mode_selector_contract 100 30).1 (by norm_num),
   (mode_selector_contract 220 60).2.1 (by norm_num) (by norm_num) (by norm_num),
   (mode_selector_contract 100 45).2.2.1 (by norm_num)
     (by intro h; exact absurd h.1 (by norm_num))⟩

/-- C2: on any valid decoded image, each of the four concrete modes executes
exactly the ordered operation sequence of the §4.3 table (the source op lists
coincide with the table rows, and the executed trace is the whole list,
independent of image content), and a successful run's step-description trail
is exactly the mode's literal step list, whose length matches the op
sequence. -/
theorem pipeline_matches_table (img : Img) (h3 : img.channels = 3)
    (hw : 0 < img.width) (hh : 0 < img.height) :
    (PreprocessAdvanced.standardOps = tableStandard ∧
     PreprocessAdvanced.aggressiveOps = tableAggressive ∧
     PreprocessAdvanced.minimalOps = tableMinimal ∧
     PreprocessAdvanced.receiptOps = tableReceipt) ∧
    ((runTrace PreprocessAdvanced.standardOps img).2 =
        PreprocessAdvanced.standardOps ∧
     (runTrace PreprocessAdvanced.aggressiveOps img).2 =
        PreprocessAdvanced.aggressiveOps ∧
     (runTrace PreprocessAdvanced.minimalOps img).2 =
        PreprocessAdvanced.minimalOps ∧
     (runTrace PreprocessAdvanced.receiptOps img).2 =
        PreprocessAdvanced.receiptOps) ∧
    (∀ stats wr s,
       (PreprocessAdvanced.preprocess_image true (some img) stats wr
           "standard").1 = Except.ok s →
         s.preprocessing_steps = PreprocessAdvanced.standardSteps) ∧
    (∀ stats wr s,
       (PreprocessAdvanced.preprocess_image true (some img) stats wr
           "aggressive").1 = Except.ok s →
         s.preprocessing_steps = PreprocessAdvanced.aggressiveSteps) ∧
    (∀ stats wr s,
       (PreprocessAdvanced.preprocess_image true (some img) stats wr
           "minimal").1 = Except.ok s →
         s.preprocessing_steps = PreprocessAdvanced.minimalSteps) ∧
    (∀ stats wr s,
       (PreprocessAdvanced.preprocess_image true (some img) stats wr
           "receipt").1 = Except.ok s →
         s.preprocessing_steps = PreprocessAdvanced.receiptSteps) ∧
    (PreprocessAdvanced.standardSteps.length =
        PreprocessAdvanced.standardOps.length ∧
     PreprocessAdvanced.aggressiveSteps.length =
        PreprocessAdvanced.aggressiveOps.length ∧
     PreprocessAdvanced.minimalSteps.length =
        PreprocessAdvanced.minimalOps.length ∧
     PreprocessAdvanced.receiptSteps.length =
        PreprocessAdvanced.receiptOps.length) := by
  obtain ⟨w, h, c⟩ := img
  simp only [Img.mk.injEq] at h3 hw hh ⊢
  subst h3
  refine ⟨⟨rfl, rfl, rfl, rfl⟩, ?_, ?_, ?_, ?_, ?_, ⟨rfl, rfl, rfl, rfl⟩⟩
  · rw [runTrace_standardOps w h hw.ne' hh.ne',
        runTrace_aggressiveOps w h hw.ne' hh.ne',
        runTrace_minimalOps w h hw.ne' hh.ne',
        runTrace_receiptOps w h hw.ne' hh.ne']
    exact ⟨rfl, rfl, rfl, rfl⟩
  · intro stats wr s hok
    rw [(adv_ok_result hok).2]; rfl
  · intro stats wr s hok
    rw [(adv_ok_result hok).2]; rfl
  · intro stats wr s hok
    rw [(adv_ok_result hok).2]; rfl
  · intro stats wr s hok
    rw [(adv_ok_result hok).2]; rfl

/-- C2 witness: the table correspondence exercised at a concrete 10×10
3-channel image and a concrete successful standard-mode run. -/
theorem pipeline_matches_table_witness :
    (runTrace PreprocessAdvanced.standardOps ⟨10, 10, 3⟩).2 =
      PreprocessAdvanced.standardOps ∧
    (runTrace PreprocessAdvanced.receiptOps ⟨10, 10, 3⟩).2 =
      PreprocessAdvanced.receiptOps ∧
    PreprocessAdvanced.standardSteps = PreprocessAdvanced.standardSteps :=
  ⟨(pipeline_matches_table ⟨10, 10, 3⟩ rfl (by decide) (by decide)).2.1.1,
   (pipeline_matches_table ⟨10, 10, 3⟩ rfl (by decide) (by decide)).2.1.2.2.2,
   (pipeline_matches_table ⟨10, 10, 3⟩ rfl (by decide) (by decide)).2.2.1
     ⟨0, 0⟩ true ⟨"standard", 10, 10, 20, 20, 1, PreprocessAdvanced.standardSteps⟩ rfl⟩

/-- C4 counterexample: the dispatch does not reject unrecognized mode
strings.  Called with mode "bogus" on a readable 10×10 image it runs the
standard pipeline to success (reporting mode "bogus"), and the lookup itself
maps the unresolved string "auto" to the standard pipeline instead of
signalling InvalidMode. -/
theorem unknown_mode_not_rejected :
    (PreprocessAdvanced.preprocess_image true (some ⟨10, 10, 3⟩) ⟨100, 45⟩
        true "bogus").1 =
      Except.ok ⟨"bogus", 10, 10, 20, 20, 1, PreprocessAdvanced.standardSteps⟩ ∧
    PreprocessAdvanced.resolveOps "auto" = PreprocessAdvanced.standardOps ∧
    PreprocessAdvanced.resolveSteps "auto" = PreprocessAdvanced.standardSteps :=
  ⟨rfl, rfl, rfl⟩

/-- C4 amended: any mode string other than the three named arms — including
"auto" reaching the dispatch unresolved and any unrecognized string — selects
the standard pipeline's ops and step list (the dispatch's trailing else arm);
and for every mode string whatsoever, the run on a valid decoded image
succeeds, so no InvalidMode rejection exists. -/
theorem unknown_mode_runs_standard (m : String)
    (h1 : m ≠ "aggressive") (h2 : m ≠ "minimal") (h3 : m ≠ "receipt") :
    (PreprocessAdvanced.resolveOps m = PreprocessAdvanced.standardOps ∧
     PreprocessAdvanced.resolveSteps m = PreprocessAdvanced.standardSteps) ∧
    ∀ (m2 : String) (stats : ImageStatistics) (img : Img),
      img.channels = 3 → 0 < img.width → 0 < img.height →
      ∃ s, (PreprocessAdvanced.preprocess_image true (some img) stats true
              m2).1 = Except.ok s := by
  constructor
  · constructor
    · unfold PreprocessAdvanced.resolveOps
      rw [if_neg h1, if_neg h2, if_neg h3]
    · unfold PreprocessAdvanced.resolveSteps
      rw [if_neg h1, if_neg h2, if_neg h3]
  · intro m2 stats img hc hwp hhp
    obtain ⟨w, h, c⟩ := img
    simp only at hc hwp hhp
    subst hc
    obtain ⟨p, hp⟩ := Option.isSome_iff_exists.mp
      (resolveOps_run_isSome w h hwp.ne' hhp.ne'
        (PreprocessAdvanced.resolveMode stats m2))
    refine ⟨⟨PreprocessAdvanced.resolveMode stats m2, w, h, p.width, p.height,
             p.channels,
             PreprocessAdvanced.resolveSteps
               (PreprocessAdvanced.resolveMode stats m2)⟩, ?_⟩
    unfold PreprocessAdvanced.preprocess_image
    rw [if_neg (by decide : ¬ (true = false))]
    dsimp only
    rw [hp]
    rfl

/-- C4 amended witness: the unrecognized string "bogus" resolves to the
standard pipeline. -/
theorem unknown_mode_runs_standard_witness :
    PreprocessAdvanced.resolveOps "bogus" = PreprocessAdvanced.standardOps ∧
    PreprocessAdvanced.resolveSteps "bogus" = PreprocessAdvanced.standardSteps :=
  (unknown_mode_runs_standard "bogus" (by decide) (by decide) (by decide)).1

/-- C5: on every valid decoded image (3-channel, non-degenerate), standard,
aggressive and minimal modes produce a single-channel image of exactly twice
the input width and height, and receipt mode one of exactly three times the
input width and height. -/
theorem processed_dimensions (img : Img) (h3 : img.channels = 3)
    (hw : 0 < img.width) (hh : 0 < img.height) :
    PreprocessAdvanced.preprocess_standard img =
      some ⟨img.width * 2, img.height * 2, 1⟩ ∧
    PreprocessAdvanced.preprocess_aggressive img =
      some ⟨img.width * 2, img.height * 2, 1⟩ ∧
    PreprocessAdvanced.preprocess_minimal img =
      some ⟨img.width * 2, img.height * 2, 1⟩ ∧
    PreprocessAdvanced.preprocess_receipt img =
      some ⟨img.width * 3, img.height * 3, 1⟩ := by
  obtain ⟨w, h, c⟩ := img
  simp only at h3 hw hh ⊢
  subst h3
  refine ⟨?_, ?_, ?_, ?_⟩
  · unfold PreprocessAdvanced.preprocess_standard
    rw [runTrace_standardOps w h hw.ne' hh.ne']
  · unfold PreprocessAdvanced.preprocess_aggressive
    rw [runTrace_aggressiveOps w h hw.ne' hh.ne']
  · unfold PreprocessAdvanced.preprocess_minimal
    rw [runTrace_minimalOps w h hw.ne' hh.ne']
  · unfold PreprocessAdvanced.preprocess_receipt
    rw [runTrace_receiptOps w h hw.ne' hh.ne']

/-- C5 witness: a minimal 10×10 image under all four modes, in particular
standard mode terminating without error at 20×20 single-channel. -/
theorem processed_dimensions_witness :
    PreprocessAdvanced.preprocess_standard ⟨10, 10, 3⟩ = some ⟨20, 20, 1⟩ ∧
    PreprocessAdvanced.preprocess_aggressive ⟨10, 10, 3⟩ = some ⟨20, 20, 1⟩ ∧
    PreprocessAdvanced.preprocess_minimal ⟨10, 10, 3⟩ = some ⟨20, 20, 1⟩ ∧
    PreprocessAdvanced.preprocess_receipt ⟨10, 10, 3⟩ = some ⟨30, 30, 1⟩ :=
  processed_dimensions ⟨10, 10, 3⟩ rfl (by decide) (by decide)

/-- C6: when a pipeline step fails, both preprocessors return a failure
result, hand nothing to the save step, and produce no success payload — no
partial pipeline output exists. -/
theorem no_partial_output_on_failure (fe wr : Bool) (img : Img)
    (stats : ImageStatistics) (mode : String) :
    ((runTrace (PreprocessAdvanced.resolveOps
          (PreprocessAdvanced.resolveMode stats mode)) img).1 = none →
       (PreprocessAdvanced.preprocess_image fe (some img) stats wr mode).2 =
         none ∧
       ∀ s, (PreprocessAdvanced.preprocess_image fe (some img) stats wr
               mode).1 ≠ Except.ok s) ∧
    ((runTrace Preprocess.pipelineOps img).1 = none →
       (Preprocess.preprocess_image fe (some img) wr).2 = none ∧
       ∀ s, (Preprocess.preprocess_image fe (some img) wr).1 ≠
         Except.ok s) := by
  constructor
  · intro hfail
    unfold PreprocessAdvanced.preprocess_image
    cases fe
    · exact ⟨rfl, fun s h => by simp at h⟩
    · rw [if_neg (by decide : ¬ (true = false))]
      dsimp only
      rw [hfail]
      exact ⟨rfl, fun s h => by simp at h⟩
  · intro hfail
    unfold Preprocess.preprocess_image
    cases fe
    · exact ⟨rfl, fun s h => by simp at h⟩
    · rw [if_neg (by decide : ¬ (true = false))]
      dsimp only
      rw [hfail]
      exact ⟨rfl, fun s h => by simp at h⟩

/-- C6 witness: a 1-channel buffer makes the grayscale-conversion step fail,
and neither script hands anything to the save step. -/
theorem no_partial_output_on_failure_witness :
    (PreprocessAdvanced.preprocess_image true (some ⟨10, 10, 1⟩) ⟨100, 45⟩
        true "standard").2 = none ∧
    (Preprocess.preprocess_image true (some ⟨10, 10, 1⟩) true).2 = none :=
  ⟨((no_partial_output_on_failure true true ⟨10, 10, 1⟩ ⟨100, 45⟩
       "standard").1 (by decide)).1,
   ((no_partial_output_on_failure true true ⟨10, 10, 1⟩ ⟨100, 45⟩
       "standard").2 (by decide)).1⟩

/-- C7 counterexample: the advanced preprocessor's failure result for a
missing input file carries the Python exception class name
"FileNotFoundError" as its error category, which lies outside the fixed
six-category set of spec §6. -/
theorem failure_category_outside_set :
    (PreprocessAdvanced.preprocess_image false none ⟨0, 0⟩ true
        "standard").1 =
      Except.error ⟨false, "FileNotFoundError", "Input file not found"⟩ ∧
    specCategoryOf "FileNotFoundError" = none :=
  ⟨rfl, rfl⟩

/-- C7 amended: failure results of preprocess.py and ocr.py always carry a
category corresponding to the fixed set of spec §6; the failure results of
preprocess_advanced.py instead carry the raised exception's type name
(FileNotFoundError, ValueError, cv2's "error", OSError), none of which is in
the set. -/
theorem failure_categories (fe wr fe2 wr2 : Bool) (cv cv2 : Option Img)
    (stats : ImageStatistics) (env : Ocr.OCREnv) (lang m : String) :
    (∀ e, (Preprocess.preprocess_image fe cv wr).1 = Except.error e →
       (specCategoryOf e.error).isSome = true) ∧
    (∀ e, Ocr.extract_text_from_image env lang = Except.error e →
       (specCategoryOf e.error).isSome = true) ∧
    (∀ e, (PreprocessAdvanced.preprocess_image fe2 cv2 stats wr2 m).1 =
        Except.error e →
       e.error ∈ ["FileNotFoundError", "ValueError", "error", "OSError"] ∧
       specCategoryOf e.error = none) := by
  refine ⟨?_, ?_, ?_⟩ <;> intro e he
  · unfold Preprocess.preprocess_image at he
    split at he
    · simp at he; subst he; decide
    · split at he
      · simp at he; subst he; decide
      · split at he
        · simp at he; subst he; decide
        · split at he
          · simp at he; subst he; decide
          · simp at he
  · unfold Ocr.extract_text_from_image at he
    split at he
    · simp at he; subst he; decide
    · split at he
      · simp at he; subst he; decide
      · split at he
        · simp at he; subst he; decide
        · split at he
          · simp at he; subst he; decide
          · simp at he
  · unfold PreprocessAdvanced.preprocess_image at he
    split at he
    · simp at he; subst he; decide
    · split at he
      · simp at he; subst he; decide
      · split at he
        · simp at he; subst he; decide
        · split at he
          · simp at he; subst he; decide
          · simp at he

/-- C7 amended witness: preprocess.py's missing-file failure maps into the
fixed category set, while the advanced script's missing-file failure does
not. -/
theorem failure_categories_witness :
    (specCategoryOf "File not found").isSome = true ∧
    specCategoryOf "FileNotFoundError" = none :=
  ⟨(failure_categories false true false true none none ⟨0, 0⟩
      ⟨false, false, false, false, false, "", [], ""⟩ "eng" "standard").1
      ⟨false, "File not found", "Input file not found"⟩ rfl,
   ((failure_categories false true false true none none ⟨0, 0⟩
       ⟨false, false, false, false, false, "", [], ""⟩ "eng" "standard").2.2
       ⟨false, "FileNotFoundError", "Input file not found"⟩ rfl).2⟩

/-- C8: the pipeline registry lookup is pure — for a concrete mode, repeated
lookups return the same op and step sequences, and any two successful runs of
the dispatch with that mode (whatever the images, statistics or save
outcomes) report the identical step-description sequence, namely the
registry's list for that mode. -/
theorem registry_lookup_idempotent (m : String)
    (hm : m = "standard" ∨ m = "aggressive" ∨ m = "minimal" ∨ m = "receipt") :
    PreprocessAdvanced.resolveOps m = PreprocessAdvanced.resolveOps m ∧
    PreprocessAdvanced.resolveSteps m = PreprocessAdvanced.resolveSteps m ∧
    ∀ fe1 cv1 st1 wr1 s1 fe2 cv2 st2 wr2 s2,
      (PreprocessAdvanced.preprocess_image fe1 cv1 st1 wr1 m).1 =
        Except.ok s1 →
      (PreprocessAdvanced.preprocess_image fe2 cv2 st2 wr2 m).1 =
        Except.ok s2 →
      s1.preprocessing_steps = s2.preprocessing_steps ∧
      s1.preprocessing_steps = PreprocessAdvanced.resolveSteps m := by
  have hauto : ∀ st : ImageStatistics,
      PreprocessAdvanced.resolveMode st m = m := by
    intro st
    unfold PreprocessAdvanced.resolveMode
    rcases hm with h | h | h | h <;> subst h <;> rfl
  refine ⟨rfl, rfl, ?_⟩
  intro fe1 cv1 st1 wr1 s1 fe2 cv2 st2 wr2 s2 hk1 hk2
  have r1 := (adv_ok_result hk1).2
  have r2 := (adv_ok_result hk2).2
  rw [hauto st1] at r1
  rw [hauto st2] at r2
  exact ⟨by rw [r1, r2], r1⟩

/-- C8 witness: two successful standard-mode runs on different images report
the same steps, the registry's standard list. -/
theorem registry_lookup_idempotent_witness :
    PreprocessAdvanced.standardSteps = PreprocessAdvanced.standardSteps ∧
    PreprocessAdvanced.standardSteps = PreprocessAdvanced.resolveSteps "standard" :=
  (registry_lookup_idempotent "standard" (Or.inl rfl)).2.2
    true (some ⟨10, 10, 3⟩) ⟨0, 0⟩ true
    ⟨"standard", 10, 10, 20, 20, 1, PreprocessAdvanced.standardSteps⟩
    true (some ⟨30, 40, 3⟩) ⟨0, 0⟩ true
    ⟨"standard", 30, 40, 60, 80, 1, PreprocessAdvanced.standardSteps⟩
    rfl rfl

/-- C9: the single pipeline of preprocess.py, the standard pipeline of
preprocess_advanced.py and the standard pipeline of compare_preprocessing.py
are the same ordered six-operation sequence; on every input image they
produce the same result, and preprocess.py's six-entry step trail equals the
advanced standard trail. -/
theorem standard_pipeline_equivalence :
    Preprocess.pipelineOps = PreprocessAdvanced.standardOps ∧
    ComparePreprocessing.standardOps = PreprocessAdvanced.standardOps ∧
    Preprocess.pySteps = PreprocessAdvanced.standardSteps ∧
    Preprocess.pySteps.length = 6 ∧
    (∀ img : Img, (runTrace Preprocess.pipelineOps img).1 =
       PreprocessAdvanced.preprocess_standard img) ∧
    (∀ img : Img, ComparePreprocessing.preprocess_standard img =
       PreprocessAdvanced.preprocess_standard img) :=
  ⟨rfl, rfl, rfl, rfl, fun _ => rfl, fun _ => rfl⟩

/-- C10: in the OCR path, an existing file that the primary decoder cannot
read is not an invalid-image failure: the code falls back to PIL, and when
the fallback and the engine work, the call succeeds; when the fallback also
fails, the failure category is "OCR failed"; no error of this function is
ever categorized "Invalid image". -/
theorem ocr_decoder_fallback (env : Ocr.OCREnv) (lang : String)
    (hex : env.fileExists = true) (hcv : env.cvReadOk = false) :
    (env.pilReadOk = true → env.tesseractFound = true → env.engineOk = true →
       Ocr.extract_text_from_image env lang =
         Except.ok ⟨pyStrip env.engineText, Ocr.word_count env.tokens,
                    Ocr.round2 (Ocr.avg_confidence env.tokens), lang,
                    env.version⟩) ∧
    (env.pilReadOk = false →
       Ocr.extract_text_from_image env lang =
         Except.error ⟨false, "OCR failed", "cannot identify image file"⟩) ∧
    (∀ e, Ocr.extract_text_from_image env lang = Except.error e →
       e.error ≠ "Invalid image") := by
  refine ⟨?_, ?_, ?_⟩
  · intro hp ht he
    unfold Ocr.extract_text_from_image
    simp [hex, hcv, hp, ht, he]
  · intro hp
    unfold Ocr.extract_text_from_image
    simp [hex, hcv, hp]
  · intro e he
    unfold Ocr.extract_text_from_image at he
    split at he
    · simp at he; subst he; decide
    · split at he
      · simp at he; subst he; decide
      · split at he
        · simp at he; subst he; decide
        · split at he
          · simp at he; subst he; decide
          · simp at he

/-- C10 witness: a file cv2 cannot decode but PIL can still yields success;
one both decoders reject fails as "OCR failed". -/
theorem ocr_decoder_fallback_witness :
    Ocr.extract_text_from_image
        ⟨true, false, true, true, true, "Hi", [⟨"Hi", 95⟩], "5.3.0"⟩ "eng" =
      Except.ok ⟨pyStrip "Hi", Ocr.word_count [⟨"Hi", 95⟩],
                 Ocr.round2 (Ocr.avg_confidence [⟨"Hi", 95⟩]), "eng",
                 "5.3.0"⟩ ∧
    Ocr.extract_text_from_image
        ⟨true, false, false, true, true, "", [], ""⟩ "eng" =
      Except.error ⟨false, "OCR failed", "cannot identify image file"⟩ :=
  ⟨(ocr_decoder_fallback
      ⟨true, false, true, true, true, "Hi", [⟨"Hi", 95⟩], "5.3.0"⟩ "eng"
      rfl rfl).1 rfl rfl rfl,
   (ocr_decoder_fallback
      ⟨true, false, false, true, true, "", [], ""⟩ "eng" rfl rfl).2.1 rfl⟩

/-- C3: the aggregator counts exactly the tokens with non-empty stripped
text; a token with non-positive confidence is excluded from the average (not
averaged in as zero); the average is the arithmetic mean of the strictly
positive confidences and 0 when there are none; on the worked example
[("Hello",90),("",-1),("World",80)] it yields word_count 2, average 85
(85.00 after 2-digit rounding) and full text "Hello World"; on the empty
token list it yields 0, 0, "". -/
theorem ocr_aggregator (tokens : List Ocr.OCRToken) (t : Ocr.OCRToken) :
    Ocr.word_count tokens = tokens.countP (fun tk => pyStrip tk.text ≠ "") ∧
    (Ocr.positiveConfidences tokens = [] → Ocr.avg_confidence tokens = 0) ∧
    (t.conf ≤ 0 →
       Ocr.avg_confidence (t :: tokens) = Ocr.avg_confidence tokens) ∧
    (Ocr.positiveConfidences tokens ≠ [] →
       Ocr.avg_confidence tokens *
           ((Ocr.positiveConfidences tokens).length : ℚ) =
         ((Ocr.positiveConfidences tokens).map (fun c => (c : ℚ))).sum) ∧
    Ocr.word_count Ocr.exTokens = 2 ∧
    Ocr.avg_confidence Ocr.exTokens = 85 ∧
    Ocr.round2 (Ocr.avg_confidence Ocr.exTokens) = 85 ∧
    Ocr.full_text Ocr.exTokens = "Hello World" ∧
    Ocr.word_count [] = 0 ∧
    Ocr.avg_confidence [] = 0 ∧
    Ocr.full_text [] = "" := by
  have havg : Ocr.avg_confidence Ocr.exTokens = 85 := by
    simp [Ocr.avg_confidence, Ocr.positiveConfidences, Ocr.exTokens]
    norm_num
  refine ⟨?_, ?_, ?_, ?_, by decide, havg, by rw [havg]; norm_num [Ocr.round2],
          by decide, rfl, rfl, rfl⟩
  · rw [Ocr.word_count, List.countP_eq_length_filter]
  · intro hempty
    rw [Ocr.avg_confidence]
    simp [hempty]
  · intro hconf
    have : ¬ (0 : Int) < t.conf := not_lt.mpr hconf
    simp [Ocr.avg_confidence, Ocr.positiveConfidences, List.filter_cons, this]
  · intro hne
    have hlen : ((Ocr.positiveConfidences tokens).length : ℚ) ≠ 0 := by
      have hl : (Ocr.positiveConfidences tokens).length ≠ 0 :=
        fun h => hne (List.length_eq_zero.mp h)
      exact_mod_cast hl
    rw [Ocr.avg_confidence]
    simp only [if_neg hne]
    exact div_mul_cancel₀ _ hlen

/-- C3 witness: the aggregator's clauses exercised on the worked example and
the empty list — the negative-sentinel token leaves the average untouched,
the empty list averages to 0, and the mean identity holds over the example's
positive confidences. -/
theorem ocr_aggregator_witness :
    Ocr.avg_confidence (⟨"", -1⟩ :: Ocr.exTokens) =
      Ocr.avg_confidence Ocr.exTokens ∧
    Ocr.avg_confidence [] = 0 ∧
    Ocr.avg_confidence Ocr.exTokens *
        ((Ocr.positiveConfidences Ocr.exTokens).length : ℚ) =
      ((Ocr.positiveConfidences Ocr.exTokens).map (fun c => (c : ℚ))).sum :=
  ⟨(ocr_aggregator Ocr.exTokens ⟨"", -1⟩).2.2.1 (by decide),
   (ocr_aggregator [] ⟨"", -1⟩).2.1 rfl,
   (ocr_aggregator Ocr.exTokens ⟨"", -1⟩).2.2.2.1 (by decide)⟩
